import Mathlib

set_option linter.unusedVariables false

/-!
Verification of the websql-sqlite3 transaction engine.

The repository has two variants of the same WebSQL emulation layer:

* the node variant (src/websql-sqlite3-node.js), in which the builder
  callback registers statements on a queue and a deferred process.nextTick
  body submits BEGIN, every queued statement (db.all), COMMIT and the
  transaction success callback to the serialized sqlite3 driver; the
  completion callbacks of db.all fire on later event-loop turns, strictly
  after the whole tick body has run;

* the wasm variant (src/unnamed/part_000), in which executeSql runs the
  statement immediately and synchronously via db.exec inside a try/catch,
  with no statement queue, no BEGIN/COMMIT and no use of the
  transaction-level callbacks.

Both variants are embedded as pure functions from the registered
statements and a driver oracle (the outcome of each statement, indexed by
its registration position) to the ordered list of observable events:
dispatches to the driver and callback invocations.  The relative order of
the events in the produced trace is exactly the order in which the
corresponding source lines run.
-/

/-- A row as delivered by the driver: an ordered list of column-name and
value pairs. -/
abbrev Row : Type := List (String × Int)

/-- Raw completion data of one db.all call in the node variant: the two
fields read off the statement context (this.changes, this.lastID, either
of which may be absent, i.e. undefined in the source) and the rows array
passed to the completion callback. -/
structure NodeRaw where
  changes : Option Nat
  lastID : Option Nat
  rows : List Row
deriving DecidableEq

/-- Raw result of one db.exec call in the wasm variant: the resultRows
array returned by db.exec, and the values of the connection-level
db.changes() and db.lastInsertRowid() at the time the success callback is
built.  Both counters are plain numbers in the source, never null. -/
structure WasmRaw where
  resultRows : List Row
  changes : Nat
  lastInsertRowid : Nat
deriving DecidableEq

/-- One registered statement: the sql text, the bind parameters, and
whether each of the two optional per-statement callbacks was supplied
(the source tests typeof callback before invoking it). -/
structure Stmt where
  sql : String
  params : List String
  hasSuccess : Bool
  hasError : Bool
deriving DecidableEq

/-- The rows object of a legacy ResultSet, as built literally in both
variants: a length field, an item accessor closure, and the underlying
array (the _array field of the source object literal). -/
structure SQLRows where
  length : Nat
  item : Nat → Option Row
  arr : List Row

/-- The legacy ResultSet shape delivered to per-statement success
callbacks in both variants. -/
structure ResultSet where
  rowsAffected : Nat
  insertId : Option Nat
  rows : SQLRows

/-- Result adapter of the node variant: the object literal built at the
successCallback call site of db.all.  rowsAffected is this.changes with
the JS fallback (this.changes or-else 0), insertId is this.lastID with
the JS fallback (this.lastID or-else null, which also maps the falsy
value 0 to null), and the rows object exposes length, item and _array
over the same rows array. -/
def mkResultSetNode (raw : NodeRaw) : ResultSet where
  rowsAffected := raw.changes.getD 0
  insertId :=
    match raw.lastID with
    | none => none
    | some 0 => none
    | some n => some n
  rows :=
    { length := raw.rows.length
      item := fun i => raw.rows[i]?
      arr := raw.rows }

/-- Result adapter of the wasm variant: the object literal built at the
successCallback call site of executeSql.  rowsAffected and insertId are
the raw connection counters db.changes() and db.lastInsertRowid(),
passed through unchanged. -/
def mkResultSetWasm (raw : WasmRaw) : ResultSet where
  rowsAffected := raw.changes
  insertId := some raw.lastInsertRowid
  rows :=
    { length := raw.resultRows.length
      item := fun i => raw.resultRows[i]?
      arr := raw.resultRows }

/-- Observable events of the emulation layer, in the order they happen:
submissions to the driver (dispatch events), per-statement callback
invocations (carrying the raw driver data the callback is built from),
transaction-level callback invocations, the return of openDatabase, the
creation callback, and the return of the caller-supplied builder
function. -/
inductive Event where
  | creationCb
  | handleReturned
  | builderReturned
  | dispatchBegin
  | dispatchStmt (i : Nat)
  | dispatchCommit
  | stmtSuccessN (i : Nat) (raw : NodeRaw)
  | stmtSuccessW (i : Nat) (raw : WasmRaw)
  | stmtError (i : Nat) (e : Nat)
  | txSuccess
  | txError (e : Nat)
deriving DecidableEq

/-- Event predicate: a transaction-level error callback invocation. -/
def Event.isTxError : Event → Bool
  | .txError _ => true
  | _ => false

/-- Event predicate: a transaction-level callback invocation (success or
error). -/
def Event.isTxCallback : Event → Bool
  | .txSuccess => true
  | .txError _ => true
  | _ => false

/-- Event predicate: a submission to the driver (BEGIN, a statement, or
COMMIT). -/
def Event.isDispatch : Event → Bool
  | .dispatchBegin => true
  | .dispatchStmt _ => true
  | .dispatchCommit => true
  | _ => false

/-- Index of a statement dispatch event, if the event is one. -/
def Event.dispatchedIdx : Event → Option Nat
  | .dispatchStmt i => some i
  | _ => none

/-- Index of a statement resolution event (a per-statement callback
invocation), if the event is one. -/
def Event.resolvedIdx : Event → Option Nat
  | .stmtSuccessN i _ => some i
  | .stmtSuccessW i _ => some i
  | .stmtError i _ => some i
  | _ => none

/-- The forEach loop of the node tick body: walk the registered
statements with the errorOccurred flag, skipping a statement when the
flag is set and otherwise submitting its db.all call (recorded here as
the queue of submitted statements, paired with their registration
index).  Submitting db.all returns immediately; the completion callback
runs on a later event-loop turn, so the loop body itself never changes
errorOccurred.  Returns the submitted queue and the flag value after the
loop. -/
def tickEnqueue : List Stmt → Nat → Bool → List (Nat × Stmt) × Bool
  | [], _, errorOccurred => ([], errorOccurred)
  | s :: rest, i, errorOccurred =>
    if errorOccurred then tickEnqueue rest (i + 1) errorOccurred
    else
      let r := tickEnqueue rest (i + 1) errorOccurred
      ((i, s) :: r.1, r.2)

/-- The completion phase of the node variant: the db.all completion
callbacks fire in submission order, after the whole tick body has run.
On a driver error the callback sets errorOccurred and invokes the
per-statement error callback if present; on success it invokes the
per-statement success callback if present with the ResultSet built from
the raw data (recorded in the event).  The callback never reads
errorOccurred.  A success callback may register further statements
(modelled by the late oracle); these are appended to the statements
array, which nothing reads any more.  Returns the emitted events, the
final flag and the final statements array. -/
def completions (driver : Nat → Except Nat NodeRaw) (late : Nat → List Stmt) :
    List (Nat × Stmt) → Bool → List Stmt → List Event × Bool × List Stmt
  | [], errorOccurred, arr => ([], errorOccurred, arr)
  | (i, s) :: rest, errorOccurred, arr =>
    match driver i with
    | Except.error e =>
      let r := completions driver late rest true arr
      ((if s.hasError then [Event.stmtError i e] else []) ++ r.1, r.2)
    | Except.ok raw =>
      let r := completions driver late rest errorOccurred
        (if s.hasSuccess then arr ++ late i else arr)
      ((if s.hasSuccess then [Event.stmtSuccessN i raw] else []) ++ r.1, r.2)

/-- Trace of one node-variant transaction.  The builder runs first and
only pushes statements (stmts is the statements array at the moment the
deferred tick runs; late i gives the statements the success callback of
statement i pushes afterwards).  The deferred tick then runs BEGIN (if
not read-only), the forEach submission loop, the COMMIT and transaction
success callback lines (both guarded by the errorOccurred value as it
stands at the end of the loop), and finally the completion callbacks
fire in order. -/
def nodeTransactionTrace (readOnly : Bool) (stmts : List Stmt)
    (hasTxSuccess hasTxError : Bool) (driver : Nat → Except Nat NodeRaw)
    (late : Nat → List Stmt) : List Event :=
  Event.builderReturned ::
    ((if readOnly then [] else [Event.dispatchBegin]) ++
      (tickEnqueue stmts 0 false).1.map (fun p => Event.dispatchStmt p.1) ++
      (if !readOnly && !(tickEnqueue stmts 0 false).2 then [Event.dispatchCommit] else []) ++
      (if hasTxSuccess && !(tickEnqueue stmts 0 false).2 then [Event.txSuccess] else []) ++
      (completions driver late (tickEnqueue stmts 0 false).1
        (tickEnqueue stmts 0 false).2 stmts).1)

/-- One executeSql call of the wasm variant: dispatch the statement via
db.exec immediately; on success invoke the per-statement success
callback if present (with the ResultSet built from the raw result), on a
thrown error invoke the per-statement error callback if present. -/
def executeSqlEvents (i : Nat) (s : Stmt) (driver : Nat → Except Nat WasmRaw) :
    List Event :=
  Event.dispatchStmt i ::
    (match driver i with
     | Except.ok raw => if s.hasSuccess then [Event.stmtSuccessW i raw] else []
     | Except.error e => if s.hasError then [Event.stmtError i e] else [])

/-- The builder of a wasm-variant transaction: the sequence of
executeSql calls it makes, each running to completion synchronously. -/
def wasmRun : List Stmt → Nat → (Nat → Except Nat WasmRaw) → List Event
  | [], _, _ => []
  | s :: rest, i, driver => executeSqlEvents i s driver ++ wasmRun rest (i + 1) driver

/-- Trace of one wasm-variant transaction: the builder executes every
statement inline and then returns.  The Transaction object stores
readOnly and the two transaction-level callbacks but never uses them:
no BEGIN, no COMMIT, no transaction-level callback invocation ever
happens in this variant. -/
def wasmTransactionTrace (readOnly : Bool) (stmts : List Stmt)
    (hasTxSuccess hasTxError : Bool) (driver : Nat → Except Nat WasmRaw) :
    List Event :=
  wasmRun stmts 0 driver ++ [Event.builderReturned]

/-- Trace of openDatabase in the node variant: new sqlite3.Database
returns at once and openDatabase returns the handle; the open callback
fires on a later event-loop turn and invokes the creation callback (if
supplied) only when opening succeeded. -/
def nodeOpenDatabaseTrace (hasCreationCb : Bool) (openOk : Bool) : List Event :=
  Event.handleReturned ::
    (if openOk && hasCreationCb then [Event.creationCb] else [])

/-- Trace of openDatabase in the wasm variant: the DB object is
constructed, the creation callback (if supplied) is invoked
synchronously, and only then does openDatabase return the handle. -/
def wasmOpenDatabaseTrace (hasCreationCb : Bool) : List Event :=
  (if hasCreationCb then [Event.creationCb] else []) ++ [Event.handleReturned]

/-- Statement with both callbacks supplied (an INSERT of the demo
code). -/
def sIns : Stmt := ⟨"INSERT INTO users (name) VALUES (?);", ["Alice"], true, true⟩

/-- Statement with both callbacks supplied, used as a failing statement
(a duplicate-key INSERT). -/
def sDup : Stmt := ⟨"INSERT INTO users (id, name) VALUES (1, ?);", ["Bob"], true, true⟩

/-- Statement with only a success callback (a SELECT of the demo code). -/
def sSel : Stmt := ⟨"SELECT * FROM users;", [], true, false⟩

/-- Raw node driver data for a successful INSERT. -/
def rawIns : NodeRaw := ⟨some 1, some 1, []⟩

/-- Raw node driver data with neither changes nor lastID reported. -/
def rawNone : NodeRaw := ⟨none, none, []⟩

/-- Raw wasm driver data for a SELECT issued after an INSERT: the
connection counters still hold the values of the INSERT. -/
def wRawSel : WasmRaw := ⟨[], 1, 7⟩

/-- Node driver that succeeds on every statement. -/
def dNodeOK : Nat → Except Nat NodeRaw := fun _ => Except.ok rawIns

/-- Node driver that fails every statement with error 7. -/
def dNodeFail : Nat → Except Nat NodeRaw := fun _ => Except.error 7

/-- Node driver that fails the first statement with error 7 and succeeds
afterwards. -/
def dNodeFailFirst : Nat → Except Nat NodeRaw :=
  fun i => if i = 0 then Except.error 7 else Except.ok rawIns

/-- Wasm driver that succeeds on every statement. -/
def dWasmOK : Nat → Except Nat WasmRaw := fun _ => Except.ok wRawSel

/-- Wasm driver that fails the first statement with error 7 and succeeds
afterwards. -/
def dWasmFailFirst : Nat → Except Nat WasmRaw :=
  fun i => if i = 0 then Except.error 7 else Except.ok wRawSel

/-- Success callbacks that register nothing further. -/
def noLate : Nat → List Stmt := fun _ => []

/-- Membership helper: an element of an if-then-else list whose first
branch is empty lies in the second branch. -/
theorem mem_if_nil_left {c : Prop} [Decidable c] {l : List Event} {e : Event}
    (he : e ∈ if c then ([] : List Event) else l) : e ∈ l := by
  split at he
  · cases he
  · exact he

/-- Membership helper: an element of an if-then-else list whose second
branch is empty lies in the first branch. -/
theorem mem_if_nil_right {c : Prop} [Decidable c] {l : List Event} {e : Event}
    (he : e ∈ if c then l else ([] : List Event)) : e ∈ l := by
  split at he
  · exact he
  · cases he

/-- The submission loop never changes the errorOccurred flag: the db.all
completion callbacks, the only writers, run on later event-loop turns. -/
theorem tickEnqueue_snd (stmts : List Stmt) (i : Nat) :
    (tickEnqueue stmts i false).2 = false := by
  induction stmts generalizing i with
  | nil => rfl
  | cons s rest ih => simp [tickEnqueue, ih]

/-- Starting with a clear flag, the submission loop submits every
registered statement, tagged with consecutive registration indices. -/
theorem tickEnqueue_fst_map (stmts : List Stmt) (i : Nat) :
    (tickEnqueue stmts i false).1.map Prod.fst = List.range' i stmts.length := by
  induction stmts generalizing i with
  | nil => rfl
  | cons s rest ih => simp [tickEnqueue, List.range'_succ, ih]

/-- Every entry of the submitted queue is a registered statement with an
in-range registration index. -/
theorem tickEnqueue_mem (stmts : List Stmt) :
    ∀ (i : Nat) (p : Nat × Stmt), p ∈ (tickEnqueue stmts i false).1 →
      p.2 ∈ stmts ∧ i ≤ p.1 ∧ p.1 < i + stmts.length := by
  induction stmts with
  | nil => intro i p hp; simp [tickEnqueue] at hp
  | cons s rest ih =>
    intro i p hp
    simp only [tickEnqueue, Bool.false_eq_true, if_false, List.mem_cons] at hp
    rcases hp with rfl | hp
    · refine ⟨List.mem_cons_self _ _, Nat.le_refl _, ?_⟩
      simp only [List.length_cons]
      omega
    · obtain ⟨h1, h2, h3⟩ := ih (i + 1) p hp
      refine ⟨List.mem_cons_of_mem _ h1, by omega, ?_⟩
      simp only [List.length_cons]
      omega

/-- Every event of the completion phase is a per-statement callback
invocation: a statement success or a statement error. -/
theorem completions_mem (driver : Nat → Except Nat NodeRaw) (late : Nat → List Stmt) :
    ∀ (q : List (Nat × Stmt)) (err : Bool) (arr : List Stmt) (e : Event),
      e ∈ (completions driver late q err arr).1 →
      (∃ j raw, e = Event.stmtSuccessN j raw) ∨ (∃ j er, e = Event.stmtError j er) := by
  intro q
  induction q with
  | nil => intro err arr e he; simp [completions] at he
  | cons p rest ih =>
    obtain ⟨i, s⟩ := p
    intro err arr e he
    cases hd : driver i with
    | error e0 =>
      simp only [completions, hd, List.mem_append] at he
      rcases he with he | he
      · rcases hs : s.hasError with _ | _ <;> rw [hs] at he <;> simp at he
        right
        exact ⟨i, e0, he⟩
      · exact ih true arr e he
    | ok raw =>
      simp only [completions, hd, List.mem_append] at he
      rcases he with he | he
      · rcases hs : s.hasSuccess with _ | _ <;> rw [hs] at he <;> simp at he
        left
        exact ⟨i, raw, he⟩
      · exact ih err _ e he

/-- The completion phase invokes no transaction-level error callback. -/
theorem completions_countP_txError (driver : Nat → Except Nat NodeRaw)
    (late : Nat → List Stmt) (q : List (Nat × Stmt)) (err : Bool) (arr : List Stmt) :
    ((completions driver late q err arr).1).countP Event.isTxError = 0 := by
  rw [List.countP_eq_zero]
  intro e he
  rcases completions_mem driver late q err arr e he with ⟨j, raw, rfl⟩ | ⟨j, er, rfl⟩ <;>
    simp [Event.isTxError]

/-- The completion phase submits nothing to the driver. -/
theorem completions_filter_dispatch (driver : Nat → Except Nat NodeRaw)
    (late : Nat → List Stmt) (q : List (Nat × Stmt)) (err : Bool) (arr : List Stmt) :
    ((completions driver late q err arr).1).filter Event.isDispatch = [] := by
  rw [List.filter_eq_nil_iff]
  intro e he
  rcases completions_mem driver late q err arr e he with ⟨j, raw, rfl⟩ | ⟨j, er, rfl⟩ <;>
    simp [Event.isDispatch]

/-- The completion phase dispatches no statement. -/
theorem completions_filterMap_dispatched (driver : Nat → Except Nat NodeRaw)
    (late : Nat → List Stmt) (q : List (Nat × Stmt)) (err : Bool) (arr : List Stmt) :
    ((completions driver late q err arr).1).filterMap Event.dispatchedIdx = [] := by
  rw [List.filterMap_eq_nil_iff]
  intro e he
  rcases completions_mem driver late q err arr e he with ⟨j, raw, rfl⟩ | ⟨j, er, rfl⟩ <;>
    simp [Event.dispatchedIdx]

/-- Statement dispatch events of the submitted queue, projected back to
registration indices. -/
theorem filterMap_dispatch_map (q : List (Nat × Stmt)) :
    (q.map (fun p => Event.dispatchStmt p.1)).filterMap Event.dispatchedIdx =
      q.map Prod.fst := by
  induction q with
  | nil => rfl
  | cons p rest ih => simp [Event.dispatchedIdx, ih]

/-- Statement dispatch events all satisfy the dispatch predicate. -/
theorem filter_dispatch_map (q : List (Nat × Stmt)) :
    (q.map (fun p => Event.dispatchStmt p.1)).filter Event.isDispatch =
      q.map (fun p => Event.dispatchStmt p.1) := by
  induction q with
  | nil => rfl
  | cons p rest ih => simp [Event.isDispatch, ih]

/-- Every event of a node-variant trace is one of: builder return, a
BEGIN, COMMIT or statement dispatch, the transaction success callback,
or a per-statement callback invocation. -/
theorem nodeTrace_mem (ro : Bool) (stmts : List Stmt) (hS hE : Bool)
    (driver : Nat → Except Nat NodeRaw) (late : Nat → List Stmt) (e : Event)
    (he : e ∈ nodeTransactionTrace ro stmts hS hE driver late) :
    e = Event.builderReturned ∨ e = Event.dispatchBegin ∨
      (∃ j, e = Event.dispatchStmt j) ∨ e = Event.dispatchCommit ∨
      e = Event.txSuccess ∨
      (∃ j raw, e = Event.stmtSuccessN j raw) ∨ (∃ j er, e = Event.stmtError j er) := by
  simp only [nodeTransactionTrace, List.mem_cons, List.mem_append] at he
  rcases he with rfl | ((((he | he) | he) | he) | he)
  · exact Or.inl rfl
  · have := mem_if_nil_left he
    simp only [List.mem_singleton] at this
    exact Or.inr (Or.inl this)
  · rcases List.mem_map.1 he with ⟨p, _, rfl⟩
    exact Or.inr (Or.inr (Or.inl ⟨p.1, rfl⟩))
  · have := mem_if_nil_right he
    simp only [List.mem_singleton] at this
    exact Or.inr (Or.inr (Or.inr (Or.inl this)))
  · have := mem_if_nil_right he
    simp only [List.mem_singleton] at this
    exact Or.inr (Or.inr (Or.inr (Or.inr (Or.inl this))))
  · rcases completions_mem driver late _ _ _ e he with h | h
    · exact Or.inr (Or.inr (Or.inr (Or.inr (Or.inr (Or.inl h)))))
    · exact Or.inr (Or.inr (Or.inr (Or.inr (Or.inr (Or.inr h)))))

/-- Every event of a wasm-variant builder run is a statement dispatch or
a per-statement callback invocation. -/
theorem wasmRun_mem (stmts : List Stmt) :
    ∀ (i : Nat) (driver : Nat → Except Nat WasmRaw) (e : Event),
      e ∈ wasmRun stmts i driver →
      (∃ j, e = Event.dispatchStmt j) ∨ (∃ j raw, e = Event.stmtSuccessW j raw) ∨
        (∃ j er, e = Event.stmtError j er) := by
  induction stmts with
  | nil => intro i driver e he; simp [wasmRun] at he
  | cons s rest ih =>
    intro i driver e he
    simp only [wasmRun, List.mem_append] at he
    rcases he with he | he
    · cases hd : driver i with
      | ok raw =>
        simp only [executeSqlEvents, hd, List.mem_cons] at he
        rcases he with rfl | he
        · exact Or.inl ⟨i, rfl⟩
        · rcases hs : s.hasSuccess with _ | _ <;> rw [hs] at he <;> simp at he
          exact Or.inr (Or.inl ⟨i, raw, he⟩)
      | error e0 =>
        simp only [executeSqlEvents, hd, List.mem_cons] at he
        rcases he with rfl | he
        · exact Or.inl ⟨i, rfl⟩
        · rcases hs : s.hasError with _ | _ <;> rw [hs] at he <;> simp at he
          exact Or.inr (Or.inr ⟨i, e0, he⟩)
    · exact ih (i + 1) driver e he

/-- A node-variant trace never invokes the transaction-level error
callback. -/
theorem nodeTrace_countP_txError (ro : Bool) (stmts : List Stmt) (hS hE : Bool)
    (driver : Nat → Except Nat NodeRaw) (late : Nat → List Stmt) :
    (nodeTransactionTrace ro stmts hS hE driver late).countP Event.isTxError = 0 := by
  rw [List.countP_eq_zero]
  intro e he
  rcases nodeTrace_mem ro stmts hS hE driver late e he with
    rfl | rfl | ⟨j, rfl⟩ | rfl | rfl | ⟨j, raw, rfl⟩ | ⟨j, er, rfl⟩ <;>
    simp [Event.isTxError]

/-- A wasm-variant trace never invokes the transaction-level error
callback. -/
theorem wasmTrace_countP_txError (ro : Bool) (stmts : List Stmt) (hS hE : Bool)
    (driver : Nat → Except Nat WasmRaw) :
    (wasmTransactionTrace ro stmts hS hE driver).countP Event.isTxError = 0 := by
  rw [List.countP_eq_zero]
  intro e he
  simp only [wasmTransactionTrace, List.mem_append, List.mem_singleton] at he
  rcases he with he | rfl
  · rcases wasmRun_mem stmts 0 driver e he with ⟨j, rfl⟩ | ⟨j, raw, rfl⟩ | ⟨j, er, rfl⟩ <;>
      simp [Event.isTxError]
  · simp [Event.isTxError]

/-- When every submitted statement has a success callback and its driver
call succeeds, the completion phase fires exactly one success callback
per submitted statement, in submission order. -/
theorem completions_resolved (driver : Nat → Except Nat NodeRaw) (late : Nat → List Stmt) :
    ∀ (q : List (Nat × Stmt)) (err : Bool) (arr : List Stmt),
      (∀ p ∈ q, p.2.hasSuccess = true) →
      (∀ p ∈ q, ∃ raw, driver p.1 = Except.ok raw) →
      ((completions driver late q err arr).1).filterMap Event.resolvedIdx =
        q.map Prod.fst := by
  intro q
  induction q with
  | nil => intro err arr hcb hok; rfl
  | cons p rest ih =>
    obtain ⟨i, s⟩ := p
    intro err arr hcb hok
    obtain ⟨raw, hraw⟩ := hok (i, s) (List.mem_cons_self _ _)
    have hs : s.hasSuccess = true := hcb (i, s) (List.mem_cons_self _ _)
    simp only [completions, hraw, hs, if_true, List.filterMap_append,
      List.filterMap_cons, Event.resolvedIdx, List.filterMap_nil, List.map_cons]
    rw [ih err _ (fun p hp => hcb p (List.mem_cons_of_mem _ hp))
      (fun p hp => hok p (List.mem_cons_of_mem _ hp))]
    rfl

/-- The statement dispatch events of the tick are the registration
indices 0..n-1 in order. -/
theorem tick_dispatch_map (stmts : List Stmt) :
    (tickEnqueue stmts 0 false).1.map (fun p => Event.dispatchStmt p.1) =
      (List.range stmts.length).map Event.dispatchStmt := by
  rw [List.range_eq_range', ← tickEnqueue_fst_map stmts 0, List.map_map]
  rfl

/-- Driver submissions of a node-variant trace: the statements in
registration order, bracketed by BEGIN and COMMIT exactly when the
transaction is not read-only (the COMMIT guard reads errorOccurred
while it is still necessarily false). -/
theorem nodeTrace_filter_dispatch (ro : Bool) (stmts : List Stmt) (hS hE : Bool)
    (driver : Nat → Except Nat NodeRaw) (late : Nat → List Stmt) :
    (nodeTransactionTrace ro stmts hS hE driver late).filter Event.isDispatch =
      (if ro then [] else [Event.dispatchBegin]) ++
        (List.range stmts.length).map Event.dispatchStmt ++
        (if ro then [] else [Event.dispatchCommit]) := by
  cases ro <;> cases hS <;>
    simp [nodeTransactionTrace, tickEnqueue_snd, List.filter_append, Event.isDispatch,
      completions_filter_dispatch, filter_dispatch_map, tick_dispatch_map]

/-- Structural form of a node-variant read-write trace with the
transaction success callback supplied: builder return, BEGIN, all
statement dispatches in registration order, COMMIT, the transaction
success callback, and only then the per-statement completions. -/
theorem nodeTrace_rw_shape (stmts : List Stmt) (hE : Bool)
    (driver : Nat → Except Nat NodeRaw) (late : Nat → List Stmt) :
    nodeTransactionTrace false stmts true hE driver late =
      Event.builderReturned :: Event.dispatchBegin ::
        ((List.range stmts.length).map Event.dispatchStmt ++
          Event.dispatchCommit :: Event.txSuccess ::
            (completions driver late (tickEnqueue stmts 0 false).1 false stmts).1) := by
  simp [nodeTransactionTrace, tickEnqueue_snd, tick_dispatch_map]

/-- C1: evaluation at concrete inputs showing how the transaction-level
callback contract is broken.  In the node variant with one succeeding
statement, the transaction success callback fires at position 4 of the
trace, before the statement resolves at position 5; with a failing
statement the success callback still fires (exactly one transaction
callback, but the wrong one and before resolution); in the wasm variant
no transaction-level callback ever fires. -/
theorem C1_tx_callback_misfires :
    nodeTransactionTrace false [sIns] true true dNodeOK noLate =
      [Event.builderReturned, Event.dispatchBegin, Event.dispatchStmt 0,
        Event.dispatchCommit, Event.txSuccess, Event.stmtSuccessN 0 rawIns] ∧
    Event.txSuccess ∈ nodeTransactionTrace false [sIns] true true dNodeFail noLate ∧
    (nodeTransactionTrace false [sIns] true true dNodeFail noLate).countP
      Event.isTxCallback = 1 ∧
    (wasmTransactionTrace false [sIns] true true dWasmOK).countP
      Event.isTxCallback = 0 := by
  decide

/-- C2: evaluation at a concrete two-statement transaction whose first
statement fails.  In the node variant statement 1 is dispatched anyway
(it was submitted before the error callback of statement 0 could run),
its success callback fires, and the transaction-level error callback
never fires; the wasm variant also dispatches statement 1 and never
fires a transaction-level error callback. -/
theorem C2_no_short_circuit :
    nodeTransactionTrace false [sDup, sIns] false true dNodeFailFirst noLate =
      [Event.builderReturned, Event.dispatchBegin, Event.dispatchStmt 0,
        Event.dispatchStmt 1, Event.dispatchCommit, Event.stmtError 0 7,
        Event.stmtSuccessN 1 rawIns] ∧
    Event.dispatchStmt 1 ∈
      wasmTransactionTrace false [sDup, sIns] false true dWasmFailFirst ∧
    (wasmTransactionTrace false [sDup, sIns] false true dWasmFailFirst).countP
      Event.isTxError = 0 := by
  decide

/-- C3 counterexample: a wasm-variant read-write transaction with one
succeeding statement dispatches neither BEGIN nor COMMIT. -/
theorem C3_counterexample :
    wasmTransactionTrace false [sIns] true true dWasmOK =
      [Event.dispatchStmt 0, Event.stmtSuccessW 0 wRawSel, Event.builderReturned] ∧
    Event.dispatchBegin ∉ wasmTransactionTrace false [sIns] true true dWasmOK ∧
    Event.dispatchCommit ∉ wasmTransactionTrace false [sIns] true true dWasmOK := by
  decide

/-- C3 (amended): read-only transactions never dispatch BEGIN or COMMIT
in either variant; in the node variant a read-write transaction whose
statements all succeed dispatches exactly one BEGIN before all statement
dispatches and exactly one COMMIT after all of them; in the wasm variant
no BEGIN or COMMIT is ever dispatched, read-write transactions
included. -/
theorem C3_begin_commit_brackets (stmts : List Stmt) (hS hE ro : Bool)
    (driver : Nat → Except Nat NodeRaw) (late : Nat → List Stmt)
    (wdriver : Nat → Except Nat WasmRaw)
    (hok : ∀ i, i < stmts.length → ∃ raw, driver i = Except.ok raw) :
    (Event.dispatchBegin ∉ nodeTransactionTrace true stmts hS hE driver late ∧
      Event.dispatchCommit ∉ nodeTransactionTrace true stmts hS hE driver late) ∧
    ((nodeTransactionTrace false stmts hS hE driver late).filter Event.isDispatch =
      Event.dispatchBegin ::
        ((List.range stmts.length).map Event.dispatchStmt ++ [Event.dispatchCommit])) ∧
    (Event.dispatchBegin ∉ wasmTransactionTrace ro stmts hS hE wdriver ∧
      Event.dispatchCommit ∉ wasmTransactionTrace ro stmts hS hE wdriver) := by
  refine ⟨⟨?_, ?_⟩, ?_, ?_, ?_⟩
  · intro h
    have hf := nodeTrace_filter_dispatch true stmts hS hE driver late
    have hm : Event.dispatchBegin ∈
        (nodeTransactionTrace true stmts hS hE driver late).filter Event.isDispatch :=
      List.mem_filter.2 ⟨h, rfl⟩
    rw [hf] at hm
    simp at hm
  · intro h
    have hf := nodeTrace_filter_dispatch true stmts hS hE driver late
    have hm : Event.dispatchCommit ∈
        (nodeTransactionTrace true stmts hS hE driver late).filter Event.isDispatch :=
      List.mem_filter.2 ⟨h, rfl⟩
    rw [hf] at hm
    simp at hm
  · have hf := nodeTrace_filter_dispatch false stmts hS hE driver late
    rw [hf]
    simp
  · intro h
    simp only [wasmTransactionTrace, List.mem_append, List.mem_singleton] at h
    rcases h with h | h
    · rcases wasmRun_mem stmts 0 wdriver _ h with ⟨j, hj⟩ | ⟨j, raw, hj⟩ | ⟨j, er, hj⟩ <;>
        cases hj
    · cases h
  · intro h
    simp only [wasmTransactionTrace, List.mem_append, List.mem_singleton] at h
    rcases h with h | h
    · rcases wasmRun_mem stmts 0 wdriver _ h with ⟨j, hj⟩ | ⟨j, raw, hj⟩ | ⟨j, er, hj⟩ <;>
        cases hj
    · cases h

/-- C3 witness: the amended bracket property at a concrete one-statement
read-write transaction with an everywhere-succeeding driver. -/
theorem C3_begin_commit_brackets_witness :
    (Event.dispatchBegin ∉ nodeTransactionTrace true [sIns] true true dNodeOK noLate ∧
      Event.dispatchCommit ∉ nodeTransactionTrace true [sIns] true true dNodeOK noLate) ∧
    ((nodeTransactionTrace false [sIns] true true dNodeOK noLate).filter Event.isDispatch =
      Event.dispatchBegin ::
        ((List.range [sIns].length).map Event.dispatchStmt ++ [Event.dispatchCommit])) ∧
    (Event.dispatchBegin ∉ wasmTransactionTrace false [sIns] true true dWasmOK ∧
      Event.dispatchCommit ∉ wasmTransactionTrace false [sIns] true true dWasmOK) :=
  C3_begin_commit_brackets [sIns] true true false dNodeOK noLate dWasmOK
    (fun i hi => ⟨rawIns, rfl⟩)

/-- C4: evaluation at a concrete read-write transaction whose only
statement fails: COMMIT is dispatched anyway (it was submitted while
errorOccurred was still necessarily false), and the transaction success
callback fires as well. -/
theorem C4_commit_despite_failure :
    nodeTransactionTrace false [sDup] true true dNodeFail noLate =
      [Event.builderReturned, Event.dispatchBegin, Event.dispatchStmt 0,
        Event.dispatchCommit, Event.txSuccess, Event.stmtError 0 7] ∧
    Event.dispatchCommit ∈ nodeTransactionTrace false [sDup] true true dNodeFail noLate := by
  decide

/-- C5: the transaction-level errorCallback argument of transaction and
readTransaction is dead code in both variants: no input produces a
transaction-level error callback invocation anywhere in a trace. -/
theorem C5_tx_error_never_invoked :
    (∀ (ro : Bool) (stmts : List Stmt) (hS hE : Bool)
        (driver : Nat → Except Nat NodeRaw) (late : Nat → List Stmt),
      (nodeTransactionTrace ro stmts hS hE driver late).countP Event.isTxError = 0) ∧
    (∀ (ro : Bool) (stmts : List Stmt) (hS hE : Bool)
        (driver : Nat → Except Nat WasmRaw),
      (wasmTransactionTrace ro stmts hS hE driver).countP Event.isTxError = 0) :=
  ⟨nodeTrace_countP_txError, wasmTrace_countP_txError⟩

/-- C6 counterexample: in the wasm variant the very first observable
event of a one-statement transaction is the dispatch of statement 0,
while the builder return is the last event: the statement is dispatched
before the caller-supplied builder function has returned. -/
theorem C6_counterexample :
    (wasmTransactionTrace false [sIns] true true dWasmOK).head? =
      some (Event.dispatchStmt 0) ∧
    (wasmTransactionTrace false [sIns] true true dWasmOK).getLast? =
      some Event.builderReturned := by
  decide

/-- C6 (amended): in the queued (node) variant the builder return
precedes every event of the trace, so no statement is dispatched before
the builder has returned; in the sync (wasm) variant the builder return
is the last event of the trace, after every statement dispatch. -/
theorem C6_registration_vs_execution :
    (∀ (ro : Bool) (stmts : List Stmt) (hS hE : Bool)
        (driver : Nat → Except Nat NodeRaw) (late : Nat → List Stmt),
      (nodeTransactionTrace ro stmts hS hE driver late).head? =
        some Event.builderReturned) ∧
    (∀ (ro : Bool) (stmts : List Stmt) (hS hE : Bool)
        (driver : Nat → Except Nat WasmRaw),
      (wasmTransactionTrace ro stmts hS hE driver).getLast? =
        some Event.builderReturned) := by
  constructor
  · intro ro stmts hS hE driver late
    rfl
  · intro ro stmts hS hE driver
    simp [wasmTransactionTrace]

/-- C7 counterexample: in a concrete error-free one-statement node
transaction the transaction success callback fires at position 4, and
statement 0 resolves only afterwards at position 5: the success callback
does not fire strictly after the last statement resolves. -/
theorem C7_counterexample :
    nodeTransactionTrace false [sSel] true false dNodeOK noLate =
      [Event.builderReturned, Event.dispatchBegin, Event.dispatchStmt 0,
        Event.dispatchCommit, Event.txSuccess, Event.stmtSuccessN 0 rawIns] ∧
    List.take 5 (nodeTransactionTrace false [sSel] true false dNodeOK noLate) =
      [Event.builderReturned, Event.dispatchBegin, Event.dispatchStmt 0,
        Event.dispatchCommit, Event.txSuccess] := by
  decide

/-- C7 (amended): in an error-free node-variant transaction whose
statements all carry success callbacks, the statements are dispatched in
exactly registration order with no reordering and no deduplication, the
transaction success callback fires exactly once, immediately after the
dispatches and before any statement resolves, and the statements then
resolve in exactly registration order. -/
theorem C7_registration_order (stmts : List Stmt) (hE : Bool)
    (driver : Nat → Except Nat NodeRaw) (late : Nat → List Stmt)
    (hcb : ∀ s ∈ stmts, s.hasSuccess = true)
    (hok : ∀ i, i < stmts.length → ∃ raw, driver i = Except.ok raw) :
    nodeTransactionTrace false stmts true hE driver late =
      Event.builderReturned :: Event.dispatchBegin ::
        ((List.range stmts.length).map Event.dispatchStmt ++
          Event.dispatchCommit :: Event.txSuccess ::
            (completions driver late (tickEnqueue stmts 0 false).1 false stmts).1) ∧
    ((completions driver late (tickEnqueue stmts 0 false).1 false stmts).1).filterMap
        Event.resolvedIdx = List.range stmts.length := by
  constructor
  · exact nodeTrace_rw_shape stmts hE driver late
  · have h1 : ∀ p ∈ (tickEnqueue stmts 0 false).1, p.2.hasSuccess = true := by
      intro p hp
      exact hcb p.2 (tickEnqueue_mem stmts 0 p hp).1
    have h2 : ∀ p ∈ (tickEnqueue stmts 0 false).1, ∃ raw, driver p.1 = Except.ok raw := by
      intro p hp
      have h3 := (tickEnqueue_mem stmts 0 p hp).2.2
      exact hok p.1 (by omega)
    rw [completions_resolved driver late _ false stmts h1 h2, tickEnqueue_fst_map,
      List.range_eq_range']

/-- C7 witness: the amended ordering property at a concrete
one-statement transaction with an everywhere-succeeding driver. -/
theorem C7_registration_order_witness :
    nodeTransactionTrace false [sSel] true false dNodeOK noLate =
      Event.builderReturned :: Event.dispatchBegin ::
        ((List.range [sSel].length).map Event.dispatchStmt ++
          Event.dispatchCommit :: Event.txSuccess ::
            (completions dNodeOK noLate (tickEnqueue [sSel] 0 false).1 false [sSel]).1) ∧
    ((completions dNodeOK noLate (tickEnqueue [sSel] 0 false).1 false [sSel]).1).filterMap
        Event.resolvedIdx = List.range [sSel].length :=
  C7_registration_order [sSel] false dNodeOK noLate (by decide)
    (fun i hi => ⟨rawIns, rfl⟩)

/-- C8 counterexample: in the wasm variant a pure SELECT statement whose
driver call reports the connection counters left over from an earlier
INSERT (changes 1, lastInsertRowid 7) is delivered a ResultSet with
rowsAffected 1 and insertId 7, neither zero nor null although the
statement mutates nothing. -/
theorem C8_counterexample :
    wasmTransactionTrace true [sSel] false false dWasmOK =
      [Event.dispatchStmt 0, Event.stmtSuccessW 0 wRawSel, Event.builderReturned] ∧
    (mkResultSetWasm wRawSel).rowsAffected = 1 ∧
    (mkResultSetWasm wRawSel).insertId = some 7 :=
  ⟨by decide, rfl, rfl⟩

/-- C8 (amended): every ResultSet built by either adapter has a rows
length field equal to the length of its rows array and an item accessor
that agrees with indexing into that array; the node adapter falls back
to rowsAffected 0 and insertId null when the driver reports no changes
or no lastID (and maps a lastID of 0 to null); the wasm adapter passes
the connection counters through unchanged, so rowsAffected and insertId
are whatever the engine currently reports, not statement-specific. -/
theorem C8_resultset_shape :
    (∀ raw : NodeRaw,
      (mkResultSetNode raw).rows.length = (mkResultSetNode raw).rows.arr.length ∧
      ∀ i : Nat, (mkResultSetNode raw).rows.item i = (mkResultSetNode raw).rows.arr[i]?) ∧
    (∀ raw : WasmRaw,
      (mkResultSetWasm raw).rows.length = (mkResultSetWasm raw).rows.arr.length ∧
      ∀ i : Nat, (mkResultSetWasm raw).rows.item i = (mkResultSetWasm raw).rows.arr[i]?) ∧
    (∀ rows : List Row,
      (mkResultSetNode ⟨none, none, rows⟩).rowsAffected = 0 ∧
      (mkResultSetNode ⟨none, none, rows⟩).insertId = none ∧
      (mkResultSetNode ⟨some 0, some 0, rows⟩).insertId = none) ∧
    (∀ raw : WasmRaw,
      (mkResultSetWasm raw).rowsAffected = raw.changes ∧
      (mkResultSetWasm raw).insertId = some raw.lastInsertRowid) :=
  ⟨fun raw => ⟨rfl, fun i => rfl⟩, fun raw => ⟨rfl, fun i => rfl⟩,
    fun rows => ⟨rfl, rfl, rfl⟩, fun raw => ⟨rfl, rfl⟩⟩

/-- C9 counterexample: in the node variant with a creation callback
supplied, openDatabase returns the handle first and the callback is
invoked only afterwards (on the asynchronous open completion), and when
opening fails the callback is never invoked at all. -/
theorem C9_counterexample :
    nodeOpenDatabaseTrace true true = [Event.handleReturned, Event.creationCb] ∧
    (nodeOpenDatabaseTrace true true).head? = some Event.handleReturned ∧
    nodeOpenDatabaseTrace true false = [Event.handleReturned] := by
  decide

/-- C9 (amended): in the wasm variant a supplied creation callback is
invoked exactly once, synchronously before openDatabase returns the
handle; in the node variant it is invoked exactly once but only after
openDatabase has returned, and only when opening succeeded (never on an
open error). -/
theorem C9_creation_callback :
    wasmOpenDatabaseTrace true = [Event.creationCb, Event.handleReturned] ∧
    wasmOpenDatabaseTrace false = [Event.handleReturned] ∧
    (nodeOpenDatabaseTrace true true).count Event.creationCb = 1 ∧
    (nodeOpenDatabaseTrace true true).head? = some Event.handleReturned ∧
    (nodeOpenDatabaseTrace true false).count Event.creationCb = 0 := by
  decide

/-- Composed form of the dispatch projection over the submitted queue. -/
theorem filterMap_dispatch_comp (q : List (Nat × Stmt)) :
    List.filterMap (Event.dispatchedIdx ∘ fun p => Event.dispatchStmt p.1) q =
      q.map Prod.fst := by
  induction q with
  | nil => rfl
  | cons p rest ih => simp [Event.dispatchedIdx, Function.comp, ih]

/-- C10: in the queued (node) variant the dispatched statements are
exactly the snapshot of the statement queue at the moment the deferred
tick iterates it, in registration order, for every choice of statements
registered later from inside completion callbacks (the late oracle):
late registrations are never dispatched. -/
theorem C10_snapshot_dispatch (ro : Bool) (stmts : List Stmt) (hS hE : Bool)
    (driver : Nat → Except Nat NodeRaw) (late : Nat → List Stmt) :
    (nodeTransactionTrace ro stmts hS hE driver late).filterMap Event.dispatchedIdx =
      List.range stmts.length := by
  cases ro <;> cases hS <;>
    simp [nodeTransactionTrace, tickEnqueue_snd, List.filterMap_append,
      Event.dispatchedIdx, completions_filterMap_dispatched, filterMap_dispatch_map,
      filterMap_dispatch_comp, tickEnqueue_fst_map, List.range_eq_range']
